import Mathlib

/-!
Verification of src/omniglot/model.py (class SiameseNetwork).

The development embeds the module at two levels.

A syntactic level models the Python parse of the activation argument
expressions occurring in the body of SiameseNetwork.build.  CPython parses a
module as a whole before executing any of it, so a single malformed
expression makes the import of the module raise SyntaxError and leaves every
definition of the module unusable.  Line 61 of the source passes the three
tokens NAME tf, DOT, STRING relu as the activation argument of the second
convolution; in the Python expression grammar a DOT inside an expression is
followed by exactly one NAME (attribute reference), so this stream fits no
production.

A semantic level models instance-attribute lookup and the straight-line body
of SiameseNetwork.call.  The body reads self.__encoder, an identifier with
two leading underscores that Python name-mangles to _SiameseNetwork__encoder
inside the class body; no method of the class assigns that attribute, so the
lookup fails and call raises AttributeError before any tensor computation.

The base class BaseNetwork lives in the omniglot package and is not among
the repository files available here; the members it supplies are modelled
from the spec where needed and marked as such.
-/

/-- Python errors relevant to this module: SyntaxError raised when the parse
of a module fails, AttributeError raised when an attribute lookup fails, and
the shape-mismatch error a framework layer raises on an ill-shaped input. -/
inductive PyError
  | parseFailure
  | attributeError (attr : String)
  | shapeError
deriving DecidableEq

/-- Tokens of the Python surface syntax appearing in the activation argument
expressions of SiameseNetwork.build: identifiers, string literals, and the
dot of an attribute reference. -/
inductive PyTok
  | ident (s : String)
  | strLit (s : String)
  | dot
deriving DecidableEq

/-- Consume attribute-reference trailers.  In the Python expression grammar a
DOT inside an expression is followed by exactly one NAME (the trailer rule of
an attribute reference); a DOT followed by anything else, a string literal in
particular, fits no production, so the parse fails. -/
def parseTrailers : List PyTok → Option (List PyTok)
  | PyTok.dot :: PyTok.ident _ :: rest => parseTrailers rest
  | PyTok.dot :: _ => none
  | rest => some rest

/-- Recognizer for the expression grammar fragment atom trailer*, where an
atom is a NAME or a STRING and a trailer is DOT NAME.  This fragment covers
every activation argument written in SiameseNetwork.build and agrees with the
full Python grammar on them: a STRING directly after a DOT is rejected. -/
def parsesAsExpr (toks : List PyTok) : Bool :=
  match toks with
  | PyTok.ident _ :: rest => decide (parseTrailers rest = some [])
  | PyTok.strLit _ :: rest => decide (parseTrailers rest = some [])
  | _ => false

/-- Tokens of the activation argument of the first convolution,
src/omniglot/model.py line 56: the string literal relu. -/
def conv1ActivationToks : List PyTok := [PyTok.strLit "relu"]

/-- Tokens of the activation argument of the second convolution, line 61 of
the source: the identifier tf, a dot, then the string literal relu, with no
NAME after the dot. -/
def conv2ActivationToks : List PyTok :=
  [PyTok.ident "tf", PyTok.dot, PyTok.strLit "relu"]

/-- Tokens of the activation argument of the third convolution, line 66. -/
def conv3ActivationToks : List PyTok := [PyTok.strLit "relu"]

/-- Tokens of the activation argument of the fourth convolution, line 71. -/
def conv4ActivationToks : List PyTok := [PyTok.strLit "relu"]

/-- Tokens of the activation argument of the 4096-unit dense layer, line 77. -/
def dense4096ActivationToks : List PyTok := [PyTok.strLit "sigmoid"]

/-- Tokens of the activation argument of the output dense layer, line 84. -/
def outputActivationToks : List PyTok := [PyTok.strLit "sigmoid"]

/-- The parse check of src/omniglot/model.py restricted to the activation
argument expressions of build.  CPython compiles a module as a whole, so the
module parses only if every one of these expressions parses; a false value
here therefore decides the import. -/
def moduleParseOk : Bool :=
  [conv1ActivationToks, conv2ActivationToks, conv3ActivationToks,
   conv4ActivationToks, dense4096ActivationToks,
   outputActivationToks].all parsesAsExpr

/-- Importing (or executing) the module omniglot.model: CPython parses the
whole file first and raises SyntaxError when the parse fails; in that case no
class or function of the module comes into existence. -/
def importOmniglotModel : Except PyError Unit :=
  if moduleParseOk then Except.ok () else Except.error PyError.parseFailure

/-- Activation functions named by the string literals used in the source. -/
inductive Activation
  | relu
  | sigmoid
deriving DecidableEq

/-- The activation an activation-argument token stream denotes: the Keras
strings relu and sigmoid name the two activations the source uses; a stream
that is not a well-formed expression (such as the one on line 61) denotes no
activation at all. -/
def activationOfToks : List PyTok → Option Activation
  | [PyTok.strLit "relu"] => some Activation.relu
  | [PyTok.strLit "sigmoid"] => some Activation.sigmoid
  | _ => none

/-- Descriptor of one stage added to the sequential model in
SiameseNetwork.build: convolution, max-pooling, flatten, dense, or the
Lambda layer wrapping the element-wise L1 distance function self.dist_func. -/
inductive LayerDesc
  | conv2d (filters : Nat) (kernel : Nat × Nat) (activation : Option Activation)
  | maxPool2d (pool : Nat × Nat)
  | flatten
  | dense (units : Nat) (activation : Option Activation)
  | l1DistanceLambda
deriving DecidableEq

/-- The stage list assembled in the body of SiameseNetwork.build, transcribed
from src/omniglot/model.py lines 49 to 86 in source order; each activation
field is the denotation of the tokenized activation argument written at that
stage, so the second convolution carries none (its argument, line 61, is the
malformed stream of conv2ActivationToks). -/
def buildStageList (num_classes : Nat) : List LayerDesc :=
  [ LayerDesc.conv2d 64 (10, 10) (activationOfToks conv1ActivationToks),
    LayerDesc.maxPool2d (2, 2),
    LayerDesc.conv2d 128 (7, 7) (activationOfToks conv2ActivationToks),
    LayerDesc.maxPool2d (2, 2),
    LayerDesc.conv2d 128 (4, 4) (activationOfToks conv3ActivationToks),
    LayerDesc.maxPool2d (2, 2),
    LayerDesc.conv2d 256 (4, 4) (activationOfToks conv4ActivationToks),
    LayerDesc.maxPool2d (2, 2),
    LayerDesc.flatten,
    LayerDesc.dense 4096 (activationOfToks dense4096ActivationToks),
    LayerDesc.l1DistanceLambda,
    LayerDesc.dense num_classes (activationOfToks outputActivationToks) ]

/-- The stage list claim C1 describes, written from the words of the claim
(for comparison with buildStageList, which is transcribed from the source):
every convolution carries the rectified-linear activation, the dense layers
carry sigmoid, the element-wise L1 distance sits between the 4096-unit dense
layer and the final dense layer of num_classes units. -/
def claimC1StageList (num_classes : Nat) : List LayerDesc :=
  [ LayerDesc.conv2d 64 (10, 10) (some Activation.relu),
    LayerDesc.maxPool2d (2, 2),
    LayerDesc.conv2d 128 (7, 7) (some Activation.relu),
    LayerDesc.maxPool2d (2, 2),
    LayerDesc.conv2d 128 (4, 4) (some Activation.relu),
    LayerDesc.maxPool2d (2, 2),
    LayerDesc.conv2d 256 (4, 4) (some Activation.relu),
    LayerDesc.maxPool2d (2, 2),
    LayerDesc.flatten,
    LayerDesc.dense 4096 (some Activation.sigmoid),
    LayerDesc.l1DistanceLambda,
    LayerDesc.dense num_classes (some Activation.sigmoid) ]

/-- Running SiameseNetwork.build as Python would: a function of a module that
failed to parse can never execute, so the import gate precedes the stage list
the body would assemble.  The num_classes the body uses comes from the keyword
arguments of build itself (line 48), defaulting to 1. -/
def SiameseNetwork.build (num_classes : Nat) :
    Except PyError (List LayerDesc) := do
  importOmniglotModel
  pure (buildStageList num_classes)

/-- A tensor, abstracted to its shape and flattened integer contents; the
claims settled here turn on control flow reached before any tensor
arithmetic, so no finer numeric structure is needed. -/
structure Tensor where
  shape : List Nat
  data : List Int
deriving DecidableEq

/-- Python private-name mangling: an identifier with at least two leading
underscores and at most one trailing underscore, written inside a class body,
is rewritten by prefixing an underscore and the class name.  Inside class
SiameseNetwork the expression self.__encoder therefore reads the attribute
named _SiameseNetwork__encoder. -/
def mangle (cls attr : String) : String :=
  if attr.data.take 2 = ['_', '_'] ∧ attr.data.reverse.take 2 ≠ ['_', '_']
  then "_" ++ cls ++ attr
  else attr

/-- Modelled from the spec: the members the base-model abstraction
BaseNetwork (package omniglot, not among the repository files here) defines
on the instance, per spec section 6: a configured input shape (in_shape), a
distance function usable as an element-wise layer (dist_func), an
already-built distance sub-model (distance), an already-built prediction
sub-model (prediction); plus the loss and summary helpers the module-level
script references (triplet_loss, summary). -/
def baseNetworkAttrs : List String :=
  ["in_shape", "dist_func", "distance", "prediction", "triplet_loss",
   "summary"]

/-- Attribute names defined on a SiameseNetwork instance.  The body of
SiameseNetwork.__init__ (src/omniglot/model.py line 44) only calls the base
initializer and assigns nothing of its own; build (lines 46 to 86) assigns
only the local variable model and never an attribute of self; the class body
contributes its method names.  In particular no assignment anywhere in the
class creates _SiameseNetwork__encoder. -/
def siameseInstanceAttrs : List String :=
  baseNetworkAttrs ++ ["build", "call"]

/-- The instance state SiameseNetwork.__init__ (lines 32 to 44) produces: the
body is the single call super().__init__(**kwargs), so num_classes is
accepted (default 1) but neither stored on the instance nor forwarded (it is
a positional parameter, not part of kwargs); the base initializer, modelled
from the spec, stores the configured input shape. -/
structure SiameseNetworkState where
  in_shape : List Nat
deriving DecidableEq

/-- Shallow embedding of SiameseNetwork.__init__: num_classes is dropped and
only input_shape reaches the base initializer. -/
def SiameseNetwork.init (num_classes : Nat) (input_shape : List Nat) :
    SiameseNetworkState :=
  { in_shape := input_shape }

/-- Shallow embedding of the body of SiameseNetwork.call
(src/omniglot/model.py lines 88 to 120).  The body performs, in order: an
attribute read of self.__encoder (name-mangled to _SiameseNetwork__encoder)
applied to inputs[0]; the same attribute read applied to inputs[1]; an
attribute read of self.distance applied to the pair; an attribute read of
self.prediction applied to the distance; and it returns only the prediction
(the alternate return of distance and prediction, line 119, is commented
out).  attrs lists the attribute names defined on the instance; reading a
name outside it raises AttributeError, as in Python.  encoder, distance and
prediction give the values those attributes would hold when defined; the
training keyword of kwargs is never read by the body. -/
def SiameseNetwork.call (attrs : List String) (encoder : Tensor → Tensor)
    (distance : Tensor × Tensor → Tensor) (prediction : Tensor → Tensor)
    (x1 x2 : Tensor) (training : Bool) : Except PyError Tensor :=
  let encName := mangle "SiameseNetwork" "__encoder"
  if encName ∈ attrs then
    let first := encoder x1
    if encName ∈ attrs then
      let second := encoder x2
      if "distance" ∈ attrs then
        let d := distance (first, second)
        if "prediction" ∈ attrs then Except.ok (prediction d)
        else Except.error (PyError.attributeError "prediction")
      else Except.error (PyError.attributeError "distance")
    else Except.error (PyError.attributeError encName)
  else Except.error (PyError.attributeError encName)

/-- Constructing a SiameseNetwork as a Python program would: the class exists
only once its module has been imported, and importing parses the whole file. -/
def constructSiameseNetwork (num_classes : Nat) (input_shape : List Nat) :
    Except PyError SiameseNetworkState := do
  importOmniglotModel
  pure (SiameseNetwork.init num_classes input_shape)

/-- The module-level script of src/omniglot/model.py (lines 123 to 137):
executing the file parses it first; then the script constructs
SiameseNetwork with default num_classes and input shape, forms two tensors
of shape (1, 105, 105, 1) and calls the network on the pair (training not
passed, hence false). -/
def mainScenario (x1 x2 : Tensor) (encoder : Tensor → Tensor)
    (distance : Tensor × Tensor → Tensor) (prediction : Tensor → Tensor) :
    Except PyError Tensor := do
  importOmniglotModel
  let net := SiameseNetwork.init 1 [105, 105, 1]
  let _ := net
  SiameseNetwork.call siameseInstanceAttrs encoder distance prediction
    x1 x2 false

/-- Modelled from the spec: the distance stage of the base model (package
omniglot, not among the repository files here) computes the element-wise
absolute difference of two embeddings (L1 distance), a pure stateless
function with no learnable parameters. -/
def l1Distance (e1 e2 : List Int) : List Int :=
  List.zipWith (fun a b => |a - b|) e1 e2

/-- A concrete batch-of-one tensor of shape (1, 105, 105, 1). -/
def t105a : Tensor := { shape := [1, 105, 105, 1], data := [0] }

/-- A second concrete batch-of-one tensor of shape (1, 105, 105, 1). -/
def t105b : Tensor := { shape := [1, 105, 105, 1], data := [1] }

/-- A concrete batch-of-one tensor of shape (1, 28, 28, 1). -/
def t28 : Tensor := { shape := [1, 28, 28, 1], data := [2] }

/-- Claim C1 (code_bug evidence): the stage list transcribed from the body of
build differs from the stage list the claim describes, the difference is
exactly the second convolution stage (erasing index 2 from both lists makes
them equal), and build can never run at all: the module fails to parse, so
invoking build yields the SyntaxError of the import rather than a model. -/
theorem c1_build_never_assembles_claimed_stages :
    buildStageList 1 ≠ claimC1StageList 1 ∧
    (buildStageList 1).eraseIdx 2 = (claimC1StageList 1).eraseIdx 2 ∧
    SiameseNetwork.build 1 = Except.error PyError.parseFailure := by
  refine ⟨by decide, by decide, by rfl⟩

/-- Claim C2 (code_bug evidence): for either value of the training flag, the
forward pass on the concrete pair of (1, 105, 105, 1) tensors returns no
tensor at all: the body raises AttributeError on the name-mangled encoder
attribute, whatever functions the encoder, distance and prediction attributes
would have held; and the module cannot even be imported. -/
theorem c2_call_returns_no_tensor :
    (∀ training : Bool,
      SiameseNetwork.call siameseInstanceAttrs id (fun p => p.1) id
          t105a t105b training
        = Except.error (PyError.attributeError "_SiameseNetwork__encoder")) ∧
    importOmniglotModel = Except.error PyError.parseFailure := by
  exact ⟨fun _ => rfl, rfl⟩

/-- Claim C3 (code_bug evidence): the module-level scenario with default
arguments and two tensors of shape (1, 105, 105, 1) raises: executing the
file parses it first, and the parse fails, so the scenario yields SyntaxError
instead of a (1, 1) prediction. -/
theorem c3_main_scenario_raises :
    mainScenario t105a t105b id (fun p => p.1) id
      = Except.error PyError.parseFailure := by
  rfl

/-- Claim C4 (code_bug evidence): the num_classes argument of the constructor
has no effect on the instance state (it is dropped by the body of __init__),
and invoking the network on a pair of tensors of the configured input shape
produces no prediction at all: the call raises AttributeError. -/
theorem c4_num_classes_dropped_and_no_prediction :
    SiameseNetwork.init 5 [105, 105, 1] = SiameseNetwork.init 1 [105, 105, 1] ∧
    SiameseNetwork.call siameseInstanceAttrs id (fun p => p.1) id
        t105a t105b false
      = Except.error (PyError.attributeError "_SiameseNetwork__encoder") := by
  exact ⟨rfl, rfl⟩

/-- Claim C5 (code_bug evidence): the element-wise L1 distance of the spec is
indeed symmetric under swapping the pair, but the code never reaches it: the
call on the concrete pair raises AttributeError in both orders, so no
Distance Score and no Prediction exist to compare. -/
theorem c5_swapped_pair_yields_no_prediction :
    (∀ e1 e2 : List Int, l1Distance e1 e2 = l1Distance e2 e1) ∧
    SiameseNetwork.call siameseInstanceAttrs id (fun p => p.1) id
        t105a t105b false
      = Except.error (PyError.attributeError "_SiameseNetwork__encoder") ∧
    SiameseNetwork.call siameseInstanceAttrs id (fun p => p.1) id
        t105b t105a false
      = Except.error (PyError.attributeError "_SiameseNetwork__encoder") := by
  refine ⟨fun e1 e2 => ?_, rfl, rfl⟩
  unfold l1Distance
  exact List.zipWith_comm_of_comm _ (fun a b => abs_sub_comm a b) e1 e2

/-- Claim C6 (code_bug evidence): the element-wise L1 distance of the spec is
indeed the zero vector on an identical pair of embeddings, but the code never
reaches it: the call on the pair (x, x) raises AttributeError before any
distance is computed. -/
theorem c6_identical_pair_yields_no_distance :
    (∀ e : List Int, l1Distance e e = List.replicate e.length 0) ∧
    SiameseNetwork.call siameseInstanceAttrs id (fun p => p.1) id
        t105a t105a false
      = Except.error (PyError.attributeError "_SiameseNetwork__encoder") := by
  refine ⟨fun e => ?_, rfl⟩
  induction e with
  | nil => rfl
  | cons a t ih =>
      simp only [l1Distance, List.zipWith, List.length_cons,
        List.replicate] at ih ⊢
      simp [ih]

/-- Claim C7 (code_bug evidence): no embedding is ever computed, for any
encoder function the shared attribute would have held: the call raises
AttributeError on the name-mangled encoder attribute independently of the
encoder, so there is no embedding whose equality across the two tower slots
could be observed. -/
theorem c7_no_embedding_for_any_encoder :
    ∀ encoder : Tensor → Tensor,
      SiameseNetwork.call siameseInstanceAttrs encoder (fun p => p.1) id
          t105a t105b true
        = Except.error (PyError.attributeError "_SiameseNetwork__encoder") := by
  intro encoder
  rfl

/-- Claim C8 (code_bug evidence): feeding a (1, 28, 28, 1) tensor to a
network configured for (105, 105, 1) does fail, but not at the first
convolution stage: the module already fails to parse, and the call body
raises AttributeError on the encoder attribute, never a layer shape error. -/
theorem c8_small_image_fails_before_any_conv :
    importOmniglotModel = Except.error PyError.parseFailure ∧
    SiameseNetwork.call siameseInstanceAttrs id (fun p => p.1) id
        t28 t105a false
      = Except.error (PyError.attributeError "_SiameseNetwork__encoder") ∧
    SiameseNetwork.call siameseInstanceAttrs id (fun p => p.1) id
        t28 t105a false
      ≠ Except.error PyError.shapeError := by
  refine ⟨rfl, rfl, ?_⟩
  intro h
  simp [SiameseNetwork.call, mangle, siameseInstanceAttrs,
    baseNetworkAttrs] at h

/-- Claim C9: the body of call reads self.__encoder, which Python
name-mangles to _SiameseNetwork__encoder; that name is not among the
attributes any method of the class (or the base initializer, modelled from
the spec) defines, so for every input pair, every value of the training flag
and every value the encoder, distance and prediction attributes would have
held, call raises AttributeError on that name before computing any
embedding, distance or prediction. -/
theorem c9_call_reads_missing_mangled_attribute :
    mangle "SiameseNetwork" "__encoder" = "_SiameseNetwork__encoder" ∧
    "_SiameseNetwork__encoder" ∉ siameseInstanceAttrs ∧
    ∀ (encoder : Tensor → Tensor) (distance : Tensor × Tensor → Tensor)
      (prediction : Tensor → Tensor) (x1 x2 : Tensor) (training : Bool),
      SiameseNetwork.call siameseInstanceAttrs encoder distance prediction
          x1 x2 training
        = Except.error (PyError.attributeError "_SiameseNetwork__encoder") := by
  exact ⟨by decide, by decide, fun _ _ _ _ _ _ => rfl⟩

/-- Claim C10: the activation argument of the second convolution (line 61)
does not parse as a Python expression, while the plain string literal of the
evident intent does; consequently the module fails to parse, importing it
yields SyntaxError, and no SiameseNetwork can be constructed, built or
called: construction, build and the module-level call scenario all yield the
SyntaxError of the import. -/
theorem c10_module_fails_to_parse :
    parsesAsExpr conv2ActivationToks = false ∧
    parsesAsExpr [PyTok.strLit "relu"] = true ∧
    moduleParseOk = false ∧
    importOmniglotModel = Except.error PyError.parseFailure ∧
    constructSiameseNetwork 1 [105, 105, 1]
      = Except.error PyError.parseFailure ∧
    SiameseNetwork.build 1 = Except.error PyError.parseFailure ∧
    mainScenario t105a t105b id (fun p => p.1) id
      = Except.error PyError.parseFailure := by
  exact ⟨by decide, by decide, by decide, rfl, rfl, rfl, rfl⟩
